import Mathlib

/-!
Verification development for the dpr-ai-simulator three-stage pipeline core.

The definitions below are a shallow embedding of the three stage agents in
`src/core/agents/` (absorb_agent.py, compile_agent.py, followup_agent.py).
The generation client (`self.llm.ainvoke`) is modelled as an explicit
`LLMOutcome` argument giving the behaviour of the single call an invoke may
issue; each embedded invoke returns its result paired with the number of
generation-client calls it issued.  Python floats are modelled as exact
rationals; `json.loads` is modelled by an executable JSON parser below.
-/

/-- JSON values, as produced by the model of `json.loads`.  An object keeps
its members in textual order; lookup takes the last binding of a key,
matching Python dict construction where a later duplicate key wins. -/
inductive Json where
  | null : Json
  | bool (b : Bool) : Json
  | num (q : ℚ) : Json
  | str (s : String) : Json
  | arr (elems : List Json) : Json
  | obj (members : List (String × Json)) : Json

/-- JSON inter-token whitespace (space, tab, newline, carriage return). -/
def jsonWs (c : Char) : Bool :=
  c == ' ' || c == '\t' || c == '\n' || c == '\r'

/-- Drop leading JSON whitespace. -/
def skipWs (cs : List Char) : List Char := cs.dropWhile jsonWs

/-- Value of a hexadecimal digit, if the character is one. -/
def hexVal (c : Char) : Option Nat :=
  if '0' ≤ c ∧ c ≤ '9' then some (c.toNat - '0'.toNat)
  else if 'a' ≤ c ∧ c ≤ 'f' then some (c.toNat - 'a'.toNat + 10)
  else if 'A' ≤ c ∧ c ≤ 'F' then some (c.toNat - 'A'.toNat + 10)
  else none

/-- Parse the body of a JSON string after its opening quote, returning the
decoded characters and the remaining input after the closing quote.
Handles the JSON escapes and rejects raw control characters, as Python's
strict `json.loads` does. -/
def parseStringChars : List Char → Option (List Char × List Char)
  | [] => none
  | '"' :: rest => some ([], rest)
  | '\\' :: 'u' :: h1 :: h2 :: h3 :: h4 :: rest => do
      let a ← hexVal h1
      let b ← hexVal h2
      let c ← hexVal h3
      let d ← hexVal h4
      let (s, r) ← parseStringChars rest
      some (Char.ofNat (((a * 16 + b) * 16 + c) * 16 + d) :: s, r)
  | '\\' :: e :: rest => do
      let c ← (match e with
        | '"' => some '"'
        | '\\' => some '\\'
        | '/' => some '/'
        | 'b' => some (Char.ofNat 8)
        | 'f' => some (Char.ofNat 12)
        | 'n' => some '\n'
        | 'r' => some '\r'
        | 't' => some '\t'
        | _ => none)
      let (s, r) ← parseStringChars rest
      some (c :: s, r)
  | c :: rest =>
      if c.toNat < 32 then none
      else do
        let (s, r) ← parseStringChars rest
        some (c :: s, r)

/-- Numeric value of a list of decimal digit characters. -/
def digitsToNat (ds : List Char) : Nat :=
  ds.foldl (fun acc c => acc * 10 + (c.toNat - '0'.toNat)) 0

/-- Parse the exponent part of a JSON number, after the `e` or `E`. -/
def parseExpPart (cs : List Char) : Option (Int × List Char) :=
  let (eneg, cs1) :=
    match cs with
    | '+' :: rest => (false, rest)
    | '-' :: rest => (true, rest)
    | _ => (false, cs)
  let (ds, r) := cs1.span Char.isDigit
  if ds.isEmpty then none
  else some ((if eneg then -(digitsToNat ds : Int) else (digitsToNat ds : Int)), r)

/-- Scale a rational by a signed power of ten. -/
def applyExp (q : ℚ) (e : Int) : ℚ :=
  match e with
  | Int.ofNat n => q * (10 : ℚ) ^ n
  | Int.negSucc n => q / (10 : ℚ) ^ (n + 1)

/-- Parse a JSON number per the JSON grammar: optional minus, an integer
part with no leading zero, an optional fraction, an optional exponent. -/
def parseNumber (cs : List Char) : Option (ℚ × List Char) := do
  let (neg, cs1) :=
    match cs with
    | '-' :: rest => (true, rest)
    | _ => (false, cs)
  let (ip, cs2) ← (match cs1 with
    | '0' :: rest => some ((0 : Nat), rest)
    | c :: rest =>
        if c.isDigit then
          let (ds, r) := rest.span Char.isDigit
          some (digitsToNat (c :: ds), r)
        else none
    | [] => none)
  let (fq, cs3) ← (match cs2 with
    | '.' :: rest =>
        let (ds, r) := rest.span Char.isDigit
        if ds.isEmpty then none
        else some (((digitsToNat ds : ℚ) / (10 : ℚ) ^ ds.length), r)
    | _ => some ((0 : ℚ), cs2))
  let (ex, cs4) ← (match cs3 with
    | 'e' :: rest => parseExpPart rest
    | 'E' :: rest => parseExpPart rest
    | _ => some ((0 : Int), cs3))
  let base : ℚ := (ip : ℚ) + fq
  let signed : ℚ := if neg then -base else base
  some (applyExp signed ex, cs4)

mutual

/-- Parse one JSON value, fuelled; fuel at least the input length always
suffices, and `jsonLoadsChars` supplies it. -/
def parseValue : Nat → List Char → Option (Json × List Char)
  | 0, _ => none
  | fuel + 1, cs =>
    match skipWs cs with
    | 'n' :: 'u' :: 'l' :: 'l' :: rest => some (Json.null, rest)
    | 't' :: 'r' :: 'u' :: 'e' :: rest => some (Json.bool true, rest)
    | 'f' :: 'a' :: 'l' :: 's' :: 'e' :: rest => some (Json.bool false, rest)
    | '"' :: rest => do
        let (s, r) ← parseStringChars rest
        some (Json.str (String.mk s), r)
    | '[' :: rest =>
        (match skipWs rest with
         | ']' :: r2 => some (Json.arr [], r2)
         | _ => do
             let (xs, r2) ← parseElems fuel (skipWs rest)
             some (Json.arr xs, r2))
    | '\x7b' :: rest =>
        (match skipWs rest with
         | '\x7d' :: r2 => some (Json.obj [], r2)
         | _ => do
             let (kvs, r2) ← parseMembers fuel (skipWs rest)
             some (Json.obj kvs, r2))
    | rest => do
        let (q, r) ← parseNumber rest
        some (Json.num q, r)

/-- Parse the elements of a non-empty JSON array, after the opening bracket
and leading whitespace. -/
def parseElems : Nat → List Char → Option (List Json × List Char)
  | 0, _ => none
  | fuel + 1, cs => do
      let (v, r) ← parseValue fuel cs
      match skipWs r with
      | ',' :: r2 => do
          let (vs, r3) ← parseElems fuel (skipWs r2)
          some (v :: vs, r3)
      | ']' :: r2 => some ([v], r2)
      | _ => none

/-- Parse the members of a non-empty JSON object, after the opening brace
and leading whitespace. -/
def parseMembers : Nat → List Char → Option (List (String × Json) × List Char)
  | 0, _ => none
  | fuel + 1, cs => do
      let (k, r) ← (match cs with
        | '"' :: rest => parseStringChars rest
        | _ => none)
      match skipWs r with
      | ':' :: r2 => do
          let (v, r3) ← parseValue fuel (skipWs r2)
          (match skipWs r3 with
           | ',' :: r4 => do
               let (kvs, r5) ← parseMembers fuel (skipWs r4)
               some ((String.mk k, v) :: kvs, r5)
           | '\x7d' :: r4 => some ([(String.mk k, v)], r4)
           | _ => none)
      | _ => none

end

/-- Model of Python's `json.loads` on a character list: exactly one JSON
value, surrounded only by whitespace. -/
def jsonLoadsChars (cs : List Char) : Except String Json :=
  match parseValue (cs.length + 1) cs with
  | some (v, rest) =>
      if (skipWs rest).isEmpty then Except.ok v else Except.error "Extra data"
  | none => Except.error "Expecting value"

/-- Python's `str.strip()` with no arguments, on the whitespace the claims
exercise (ASCII whitespace). -/
def trimChars (cs : List Char) : List Char :=
  ((cs.dropWhile Char.isWhitespace).reverse.dropWhile Char.isWhitespace).reverse

/-- The fence stripping performed inline by every agent before `json.loads`
(absorb_agent.py lines 80-86, compile_agent.py lines 112-118,
followup_agent.py lines 129-135): drop a leading literal three-backticks-json
marker (7 characters), then drop a leading bare three-backtick fence from the
result, then drop a trailing three-backtick fence, then strip whitespace. -/
def stripCodeFences (cs0 : List Char) : List Char :=
  let cs1 := if ("```json".data).isPrefixOf cs0 then cs0.drop 7 else cs0
  let cs2 := if ("```".data).isPrefixOf cs1 then cs1.drop 3 else cs1
  let cs3 := if ("```".data).isSuffixOf cs2 then cs2.take (cs2.length - 3) else cs2
  trimChars cs3

/-- The response-content extraction every agent performs: strip fences then
`json.loads` (the code of the three agents is textually identical here). -/
def extract_json (s : String) : Except String Json :=
  jsonLoadsChars (stripCodeFences s.data)

/-- Strip the exact 7-character leading marker three-backticks-followed-by-json,
if present (amended description of the first stripping step). -/
def stripTaggedFence (cs : List Char) : List Char :=
  if ("```json".data).isPrefixOf cs then cs.drop 7 else cs

/-- Strip a leading bare three-backtick fence, if present. -/
def stripBareFence (cs : List Char) : List Char :=
  if ("```".data).isPrefixOf cs then cs.drop 3 else cs

/-- Strip a trailing three-backtick fence, if present. -/
def stripTrailingFence (cs : List Char) : List Char :=
  if ("```".data).isSuffixOf cs then cs.take (cs.length - 3) else cs

/-- Extraction as described by the amended claim C7: strip the exact
three-backticks-json marker if present, then independently a leading bare
fence, then a trailing fence, trim, and parse as JSON. -/
def amendedExtract (s : String) : Except String Json :=
  jsonLoadsChars (trimChars (stripTrailingFence (stripBareFence (stripTaggedFence s.data))))

/-- The fence stripping as the original spec sentence words it: strip a
leading marker of three backticks optionally followed by any language tag if
present (the tag modelled as the maximal run of alphanumeric characters after
the backticks), else strip a leading bare fence; strip a trailing fence;
trim.  This definition follows the spec's words, for comparison with
`stripCodeFences`, which follows the source. -/
def specStripFences (cs0 : List Char) : List Char :=
  let cs1 :=
    if ("```".data).isPrefixOf cs0 then (cs0.drop 3).dropWhile Char.isAlphanum
    else cs0
  let cs2 := if ("```".data).isSuffixOf cs1 then cs1.take (cs1.length - 3) else cs1
  trimChars cs2

/-- Extraction as the original spec sentence describes it. -/
def specExtract (s : String) : Except String Json :=
  jsonLoadsChars (specStripFences s.data)

/-- Whether an extraction succeeded. -/
def isOkE (r : Except String Json) : Bool :=
  match r with
  | Except.ok _ => true
  | Except.error _ => false

/-- Python dict lookup on a parsed object: the last binding of a duplicated
key wins. -/
def dictGet (kvs : List (String × Json)) (key : String) : Option Json :=
  (kvs.reverse.find? (fun kv => kv.fst == key)).map Prod.snd

/-- Modelled from the spec: the result models in `src/models.py` are not in
the sources; §4.2 says field extraction "always supplies a default for
absent keys (e.g., empty string, empty list) rather than failing".  A key
bound to a non-string value is likewise modelled as yielding the default. -/
def getStr (kvs : List (String × Json)) (key default : String) : String :=
  match dictGet kvs key with
  | some (Json.str s) => s
  | _ => default

/-- Modelled from the spec: list-valued field extraction with a default for
an absent key, as for `getStr`. -/
def getArr (kvs : List (String × Json)) (key : String) (default : List Json) : List Json :=
  match dictGet kvs key with
  | some (Json.arr xs) => xs
  | _ => default

/-- Per-1k-token rates, from process-wide configuration
(src/config/settings.py: prompt_cost_per_1k, completion_cost_per_1k). -/
structure Config where
  prompt_cost_per_1k : ℚ
  completion_cost_per_1k : ℚ

/-- Modelled from the spec: `BaseAgent._calculate_cost` lives in
`src/core/agents/base.py`, which is not in the sources; §4.1 gives
cost = (prompt_tokens/1000)*prompt_rate + (completion_tokens/1000)*completion_rate. -/
def calculateCost (cfg : Config) (promptTokens completionTokens : Nat) : ℚ :=
  (promptTokens : ℚ) / 1000 * cfg.prompt_cost_per_1k
    + (completionTokens : ℚ) / 1000 * cfg.completion_cost_per_1k

/-- Token usage reported in a generation response's metadata. -/
structure TokenUsage where
  prompt_tokens : Nat
  completion_tokens : Nat

/-- A successful generation-client response: free-text content plus optional
token-usage metadata (`none` models absent `response_metadata`/`token_usage`,
which the agents treat as zero cost). -/
structure LLMResponse where
  content : String
  token_usage : Option TokenUsage

/-- The behaviour of the one generation-client call an invoke may issue:
either a response or a raised transport/timeout error. -/
inductive LLMOutcome where
  | success (resp : LLMResponse) : LLMOutcome
  | failure (err : String) : LLMOutcome

/-- The cost each agent computes right after a successful call
(absorb_agent.py lines 71-76 and the identical blocks in the other two
agents): zero when metadata is absent, otherwise `_calculate_cost` on the
reported token counts. -/
def costOfResponse (cfg : Config) (resp : LLMResponse) : ℚ :=
  match resp.token_usage with
  | some u => calculateCost cfg u.prompt_tokens u.completion_tokens
  | none => 0

/-- Modelled from the spec: `DPRMember` is defined in `src/models.py`, not in
the sources; only the identity the agents copy into results is needed. -/
structure DPRMember where
  id : String

/-- Modelled from the spec: `Aspirasi` is defined in `src/models.py`, not in
the sources; free-text content, category and priority feed only the prompt. -/
structure Aspirasi where
  id : String
  content : String
  category : String
  priority : String

/-- Modelled from the spec: `AbsorpsiResponse` (src/models.py) — the
Evaluation Agent's result record; `error` defaults to none. -/
structure AbsorpsiResponse where
  member_id : String
  aspirasi_id : String
  relevansi : String
  alasan_relevansi : String
  poin_kunci : List Json
  rekomendasi_awal : String
  cost_usd : ℚ
  error : Option String := none

/-- Modelled from the spec: `KompilasiResponse` (src/models.py) — the
Aggregation Agent's result record; fields the code omits at a construction
site take the model defaults (empty string, empty list, none). -/
structure KompilasiResponse where
  status : String
  jumlah_anggota : Nat
  ringkasan : String := ""
  tema_utama : List Json := []
  fraksi_terlibat : List Json := []
  rekomendasi_tindak_lanjut : String := ""
  cost_usd : ℚ
  error : Option String := none

/-- Modelled from the spec: `TindakLanjutResponse` (src/models.py) — the
Action-Planning Agent's result record, with defaults as for the others. -/
structure TindakLanjutResponse where
  langkah_tindak_lanjut : List Json
  komisi_penanggung_jawab : String
  timeline : String
  indikator_keberhasilan : List Json
  mekanisme : String
  estimasi_anggaran : String := ""
  rincian_anggaran : List Json := []
  sumber_dana : String := ""
  cost_usd : ℚ
  error : Option String := none

/-- The failure description str(e) records when accessing `.get` on a parsed
value that is not an object (a JSON array, string, number, boolean or null
parses, but then `result.get` raises AttributeError inside the try block). -/
def attributeErrorMsg : String := "object has no attribute get"

/-- The failure, if any, of the call-then-parse steps shared by all three
agents: the raised error when the generation call itself failed; the
`json.loads` error when the content did not parse; the AttributeError when
it parsed to a non-object; nothing otherwise. -/
def callFailure (llm : LLMOutcome) : Option String :=
  match llm with
  | LLMOutcome.failure e => some e
  | LLMOutcome.success resp =>
      match extract_json resp.content with
      | Except.ok (Json.obj _) => none
      | Except.ok _ => some attributeErrorMsg
      | Except.error e => some e

/-- AbsorbAgent.invoke (absorb_agent.py lines 48-110), with the generation
client's behaviour passed explicitly; the second component counts the
generation-client calls issued (always one for this agent). -/
def absorbInvoke (cfg : Config) (member : DPRMember) (aspirasi : Aspirasi)
    (llm : LLMOutcome) : AbsorpsiResponse × Nat :=
  match llm with
  | LLMOutcome.failure e =>
      ({ member_id := member.id, aspirasi_id := aspirasi.id, relevansi := "rendah",
         alasan_relevansi := "", poin_kunci := [], rekomendasi_awal := "",
         error := some e, cost_usd := 0 }, 1)
  | LLMOutcome.success resp =>
      let cost := costOfResponse cfg resp
      match extract_json resp.content with
      | Except.ok (Json.obj kvs) =>
          ({ member_id := member.id, aspirasi_id := aspirasi.id,
             relevansi := getStr kvs "relevansi" "rendah",
             alasan_relevansi := getStr kvs "alasan_relevansi" "",
             poin_kunci := getArr kvs "poin_kunci" [],
             rekomendasi_awal := getStr kvs "rekomendasi_awal" "",
             cost_usd := cost }, 1)
      | Except.ok _ =>
          ({ member_id := member.id, aspirasi_id := aspirasi.id, relevansi := "rendah",
             alasan_relevansi := "", poin_kunci := [], rekomendasi_awal := "",
             error := some attributeErrorMsg, cost_usd := cost }, 1)
      | Except.error e =>
          ({ member_id := member.id, aspirasi_id := aspirasi.id, relevansi := "rendah",
             alasan_relevansi := "", poin_kunci := [], rekomendasi_awal := "",
             error := some e, cost_usd := cost }, 1)

/-- The relevance filter of CompileAgent.invoke (compile_agent.py lines
82-84): relevance literally "Tinggi" or "Sedang", and no recorded error. -/
def relevantFilter (r : AbsorpsiResponse) : Bool :=
  (r.relevansi == "Tinggi" || r.relevansi == "Sedang") && r.error == none

/-- CompileAgent.invoke (compile_agent.py lines 68-138): filter the input
responses, short-circuit to a not-relevant result on an empty filtered set
without calling the client, otherwise one call and parse, with the error
branch preserving the filtered count and the cost accrued so far. -/
def compileInvoke (cfg : Config) (aspirasi : Aspirasi)
    (responses : List AbsorpsiResponse) (llm : LLMOutcome) : KompilasiResponse × Nat :=
  let relevant_responses := responses.filter relevantFilter
  if relevant_responses.isEmpty then
    ({ status := "tidak_relevan", jumlah_anggota := 0, cost_usd := 0 }, 0)
  else
    match llm with
    | LLMOutcome.failure e =>
        ({ status := "error", jumlah_anggota := relevant_responses.length,
           error := some e, cost_usd := 0 }, 1)
    | LLMOutcome.success resp =>
        let cost := costOfResponse cfg resp
        match extract_json resp.content with
        | Except.ok (Json.obj kvs) =>
            ({ status := "terkumpul", jumlah_anggota := relevant_responses.length,
               ringkasan := getStr kvs "ringkasan" "",
               tema_utama := getArr kvs "tema_utama" [],
               fraksi_terlibat := getArr kvs "fraksi_terlibat" [],
               rekomendasi_tindak_lanjut := getStr kvs "rekomendasi_tindak_lanjut" "",
               cost_usd := cost }, 1)
        | Except.ok _ =>
            ({ status := "error", jumlah_anggota := relevant_responses.length,
               error := some attributeErrorMsg, cost_usd := cost }, 1)
        | Except.error e =>
            ({ status := "error", jumlah_anggota := relevant_responses.length,
               error := some e, cost_usd := cost }, 1)

/-- The precondition-failure message of FollowUpAgent.invoke
(followup_agent.py line 106). -/
def noValidKompilasiMsg : String :=
  "Tidak ada kompilasi yang valid untuk ditindaklanjuti"

/-- FollowUpAgent.invoke (followup_agent.py lines 86-159): short-circuit
without a client call unless the aggregation status is "terkumpul",
otherwise one call and parse with the shared error handling. -/
def followupInvoke (cfg : Config) (aspirasi : Aspirasi)
    (kompilasi : KompilasiResponse) (llm : LLMOutcome) : TindakLanjutResponse × Nat :=
  if kompilasi.status != "terkumpul" then
    ({ langkah_tindak_lanjut := [], komisi_penanggung_jawab := "", timeline := "",
       indikator_keberhasilan := [], mekanisme := "",
       error := some noValidKompilasiMsg, cost_usd := 0 }, 0)
  else
    match llm with
    | LLMOutcome.failure e =>
        ({ langkah_tindak_lanjut := [], komisi_penanggung_jawab := "", timeline := "",
           indikator_keberhasilan := [], mekanisme := "",
           error := some e, cost_usd := 0 }, 1)
    | LLMOutcome.success resp =>
        let cost := costOfResponse cfg resp
        match extract_json resp.content with
        | Except.ok (Json.obj kvs) =>
            ({ langkah_tindak_lanjut := getArr kvs "langkah_tindak_lanjut" [],
               komisi_penanggung_jawab := getStr kvs "komisi_penanggung_jawab" "",
               timeline := getStr kvs "timeline" "",
               indikator_keberhasilan := getArr kvs "indikator_keberhasilan" [],
               mekanisme := getStr kvs "mekanisme" "",
               estimasi_anggaran := getStr kvs "estimasi_anggaran" "",
               rincian_anggaran := getArr kvs "rincian_anggaran" [],
               sumber_dana := getStr kvs "sumber_dana" "",
               cost_usd := cost }, 1)
        | Except.ok _ =>
            ({ langkah_tindak_lanjut := [], komisi_penanggung_jawab := "", timeline := "",
               indikator_keberhasilan := [], mekanisme := "",
               error := some attributeErrorMsg, cost_usd := cost }, 1)
        | Except.error e =>
            ({ langkah_tindak_lanjut := [], komisi_penanggung_jawab := "", timeline := "",
               indikator_keberhasilan := [], mekanisme := "",
               error := some e, cost_usd := cost }, 1)

/-- Concrete configuration with the default rates of settings.py. -/
def cfg0 : Config :=
  { prompt_cost_per_1k := 1 / 10000, completion_cost_per_1k := 1 / 2500 }

/-- A concrete member for witnesses. -/
def member0 : DPRMember := { id := "member-1" }

/-- A concrete aspiration for witnesses. -/
def asp0 : Aspirasi :=
  { id := "asp-1", content := "perbaikan jalan", category := "infrastruktur",
    priority := "tinggi" }

/-- A concrete error-free high-relevance evaluation result. -/
def okResp0 : AbsorpsiResponse :=
  { member_id := "member-1", aspirasi_id := "asp-1", relevansi := "Tinggi",
    alasan_relevansi := "", poin_kunci := [], rekomendasi_awal := "",
    cost_usd := 0 }

/-- A concrete evaluation result carrying an error. -/
def errResp0 : AbsorpsiResponse :=
  { member_id := "member-2", aspirasi_id := "asp-1", relevansi := "Tinggi",
    alasan_relevansi := "", poin_kunci := [], rekomendasi_awal := "",
    cost_usd := 0, error := some "timeout" }

/-- A concrete low-relevance evaluation result. -/
def lowResp0 : AbsorpsiResponse :=
  { member_id := "member-3", aspirasi_id := "asp-1", relevansi := "Rendah",
    alasan_relevansi := "", poin_kunci := [], rekomendasi_awal := "",
    cost_usd := 0 }

/-- A concrete collected aggregation result. -/
def komp0 : KompilasiResponse :=
  { status := "terkumpul", jumlah_anggota := 1, cost_usd := 0 }

/-- A concrete errored aggregation result. -/
def kompErr0 : KompilasiResponse :=
  { status := "error", jumlah_anggota := 1, cost_usd := 0,
    error := some "timeout" }

/-- A concrete generation response whose content is not JSON but which
reports token usage. -/
def respBad0 : LLMResponse :=
  { content := "not json",
    token_usage := some { prompt_tokens := 1000, completion_tokens := 2000 } }

/-- A concrete generation response whose content is an empty JSON object. -/
def respEmptyObj : LLMResponse := { content := "\x7b\x7d", token_usage := none }

/-- A concrete generation response with a well-formed object. -/
def respGood0 : LLMResponse :=
  { content := "\x7b\"ringkasan\":\"ok\"\x7d", token_usage := none }

/-- The fenced reference input of the parser round-trip property. -/
def fencedJson : String := "```json\n\x7b\"a\":1\x7d\n```"

/-- The unfenced reference input of the parser round-trip property. -/
def bareJson : String := "\x7b\"a\":1\x7d"

/-- A fenced input whose language tag is not json. -/
def fencedPy : String := "```py\n\x7b\"a\":1\x7d\n```"

/-- The relevance filter in propositional form. -/
theorem relevantFilter_iff (r : AbsorpsiResponse) :
    relevantFilter r = true ↔
      ((r.relevansi = "Tinggi" ∨ r.relevansi = "Sedang") ∧ r.error = none) := by
  simp [relevantFilter]

/-- C2: for every aspiration and every sequence of EvaluationResults, if no
entry has relevance Tinggi or Sedang with no error, CompileAgent.invoke
issues no generation-client call and returns status tidak_relevan, member
count 0 and cost exactly 0, whatever the client would have done. -/
theorem C2_compile_short_circuits_when_nothing_relevant
    (cfg : Config) (aspirasi : Aspirasi) (responses : List AbsorpsiResponse)
    (llm : LLMOutcome)
    (h : ∀ r ∈ responses,
      ¬((r.relevansi = "Tinggi" ∨ r.relevansi = "Sedang") ∧ r.error = none)) :
    compileInvoke cfg aspirasi responses llm
      = ({ status := "tidak_relevan", jumlah_anggota := 0, cost_usd := 0 }, 0) := by
  have hnil : responses.filter relevantFilter = [] := by
    rw [List.filter_eq_nil_iff]
    intro r hr
    simpa [relevantFilter_iff] using h r hr
  simp [compileInvoke, hnil]

/-- C3: for every aspiration and every KompilasiResponse whose status is not
terkumpul, FollowUpAgent.invoke issues no generation-client call and returns
a TindakLanjutResponse with empty domain fields, cost exactly 0 and a
non-empty error saying no valid aggregation was available. -/
theorem C3_followup_short_circuits_without_collected_status
    (cfg : Config) (aspirasi : Aspirasi) (kompilasi : KompilasiResponse)
    (llm : LLMOutcome) (h : kompilasi.status ≠ "terkumpul") :
    followupInvoke cfg aspirasi kompilasi llm
      = ({ langkah_tindak_lanjut := [], komisi_penanggung_jawab := "", timeline := "",
           indikator_keberhasilan := [], mekanisme := "",
           error := some noValidKompilasiMsg, cost_usd := 0 }, 0)
    ∧ noValidKompilasiMsg ≠ "" := by
  constructor
  · simp [followupInvoke, h]
  · decide

/-- C4: in every outcome branch of CompileAgent.invoke the returned
jumlah_anggota equals the number of input results passing the relevance
filter (relevance Tinggi or Sedang, no error). -/
theorem C4_member_count_invariant
    (cfg : Config) (aspirasi : Aspirasi) (responses : List AbsorpsiResponse)
    (llm : LLMOutcome) :
    (compileInvoke cfg aspirasi responses llm).1.jumlah_anggota
      = (responses.filter relevantFilter).length := by
  by_cases hemp : (responses.filter relevantFilter).isEmpty
  · have hnil : responses.filter relevantFilter = [] := by
      simpa [List.isEmpty_iff] using hemp
    simp [compileInvoke, hnil]
  · have hemp' : (responses.filter relevantFilter).isEmpty = false := by
      simpa using hemp
    cases llm with
    | failure e => simp [compileInvoke, hemp']
    | success resp =>
      simp only [compileInvoke, hemp', Bool.false_eq_true, if_false]
      cases hx : extract_json resp.content with
      | ok v => cases v <;> simp [hx]
      | error e => simp [hx]

/-- C1: for every input and every behaviour of the generation client
(success, transport error, timeout, unparseable content), each stage agent's
invoke returns its result type and never lets an exception escape; whenever
the call-or-parse steps fail, the failure's description is recorded in the
result's error field.  Compile and FollowUp are stated under the conditions
in which they issue their call at all; their short-circuit branches are
covered by C2 and C3. -/
theorem C1_no_exception_escapes
    (cfg : Config) (member : DPRMember) (aspirasi : Aspirasi)
    (responses : List AbsorpsiResponse) (kompilasi : KompilasiResponse)
    (llm : LLMOutcome) :
    (absorbInvoke cfg member aspirasi llm).1.error = callFailure llm
    ∧ ((responses.filter relevantFilter).isEmpty = false →
        (compileInvoke cfg aspirasi responses llm).1.error = callFailure llm)
    ∧ (kompilasi.status = "terkumpul" →
        (followupInvoke cfg aspirasi kompilasi llm).1.error = callFailure llm) := by
  refine ⟨?_, fun hne => ?_, fun hst => ?_⟩
  · cases llm with
    | failure e => rfl
    | success resp =>
      simp only [absorbInvoke, callFailure]
      cases hx : extract_json resp.content with
      | ok v => cases v <;> simp [hx]
      | error e => simp [hx]
  · cases llm with
    | failure e => simp [compileInvoke, hne, callFailure]
    | success resp =>
      simp only [compileInvoke, hne, Bool.false_eq_true, if_false, callFailure]
      cases hx : extract_json resp.content with
      | ok v => cases v <;> simp [hx]
      | error e => simp [hx]
  · cases llm with
    | failure e => simp [followupInvoke, hst, callFailure]
    | success resp =>
      simp only [followupInvoke, hst, bne_self_eq_false, Bool.false_eq_true,
        if_false, callFailure]
      cases hx : extract_json resp.content with
      | ok v => cases v <;> simp [hx]
      | error e => simp [hx]

/-- C5: a failed evaluation call or parse yields relevansi rendah with the
error recorded, and any evaluation result carrying an error is excluded by
the aggregation stage's relevance filter, so failed evaluations never
contribute to aggregation. -/
theorem C5_failed_evaluations_never_aggregate
    (cfg : Config) (member : DPRMember) (aspirasi : Aspirasi)
    (llm : LLMOutcome) (d : String) :
    (callFailure llm = some d →
       (absorbInvoke cfg member aspirasi llm).1.relevansi = "rendah"
       ∧ (absorbInvoke cfg member aspirasi llm).1.error = some d)
    ∧ ∀ (r : AbsorpsiResponse) (responses : List AbsorpsiResponse),
        r.error ≠ none → r ∉ responses.filter relevantFilter := by
  constructor
  · intro hf
    cases llm with
    | failure e =>
      simp only [callFailure, Option.some.injEq] at hf
      subst hf
      exact ⟨rfl, rfl⟩
    | success resp =>
      simp only [callFailure] at hf
      simp only [absorbInvoke]
      cases hx : extract_json resp.content with
      | error e =>
        rw [hx] at hf
        simp only [Option.some.injEq] at hf
        subst hf
        simp [hx]
      | ok v =>
        rw [hx] at hf
        cases v <;> simp_all [hx]
  · intro r responses hr hmem
    have hfil := (List.mem_filter.mp hmem).2
    rw [relevantFilter_iff] at hfil
    exact hr hfil.2

/-- C6: the result returned on a caught failure carries the cost accrued
before the failure: zero when the generation call itself failed, and the
cost computed from the response's token usage when the call succeeded but
parsing of its content failed, with the failure recorded and the domain
fields at their empty defaults. -/
theorem C6_partial_cost_on_failure
    (cfg : Config) (member : DPRMember) (aspirasi : Aspirasi)
    (responses : List AbsorpsiResponse) (kompilasi : KompilasiResponse)
    (e : String) (resp : LLMResponse) (d : String) :
    ((absorbInvoke cfg member aspirasi (LLMOutcome.failure e)).1.cost_usd = 0
      ∧ ((responses.filter relevantFilter).isEmpty = false →
          (compileInvoke cfg aspirasi responses (LLMOutcome.failure e)).1.cost_usd = 0)
      ∧ (kompilasi.status = "terkumpul" →
          (followupInvoke cfg aspirasi kompilasi (LLMOutcome.failure e)).1.cost_usd = 0))
    ∧ (callFailure (LLMOutcome.success resp) = some d →
        (absorbInvoke cfg member aspirasi (LLMOutcome.success resp)).1
          = { member_id := member.id, aspirasi_id := aspirasi.id, relevansi := "rendah",
              alasan_relevansi := "", poin_kunci := [], rekomendasi_awal := "",
              error := some d, cost_usd := costOfResponse cfg resp }
        ∧ ((responses.filter relevantFilter).isEmpty = false →
            (compileInvoke cfg aspirasi responses (LLMOutcome.success resp)).1
              = { status := "error",
                  jumlah_anggota := (responses.filter relevantFilter).length,
                  error := some d, cost_usd := costOfResponse cfg resp })
        ∧ (kompilasi.status = "terkumpul" →
            (followupInvoke cfg aspirasi kompilasi (LLMOutcome.success resp)).1
              = { langkah_tindak_lanjut := [], komisi_penanggung_jawab := "",
                  timeline := "", indikator_keberhasilan := [], mekanisme := "",
                  error := some d, cost_usd := costOfResponse cfg resp })) := by
  constructor
  · refine ⟨rfl, fun hne => ?_, fun hst => ?_⟩
    · simp [compileInvoke, hne]
    · simp [followupInvoke, hst]
  · intro hf
    simp only [callFailure] at hf
    refine ⟨?_, fun hne => ?_, fun hst => ?_⟩
    · simp only [absorbInvoke]
      cases hx : extract_json resp.content with
      | error e2 =>
        rw [hx] at hf
        simp only [Option.some.injEq] at hf
        subst hf
        simp [hx]
      | ok v =>
        rw [hx] at hf
        cases v <;> simp_all [hx]
    · simp only [compileInvoke, hne, Bool.false_eq_true, if_false]
      cases hx : extract_json resp.content with
      | error e2 =>
        rw [hx] at hf
        simp only [Option.some.injEq] at hf
        subst hf
        simp [hx]
      | ok v =>
        rw [hx] at hf
        cases v <;> simp_all [hx]
    · simp only [followupInvoke, hst, bne_self_eq_false, Bool.false_eq_true, if_false]
      cases hx : extract_json resp.content with
      | error e2 =>
        rw [hx] at hf
        simp only [Option.some.injEq] at hf
        subst hf
        simp [hx]
      | ok v =>
        rw [hx] at hf
        cases v <;> simp_all [hx]

/-- C7 (amended): the response parser strips the exact 7-character leading
marker of three backticks followed by the tag json if present, then strips a
leading bare three-backtick fence if the resulting text starts with one,
then strips a trailing three-backtick fence if present, trims surrounding
whitespace, and parses the remainder as JSON, failing with a
MalformedResponse error exactly when that remainder is not valid JSON.
Fences with any other language tag are not recognised as tagged markers;
only their bare backticks are stripped. -/
theorem C7_extraction_algorithm (s : String) :
    extract_json s
      = jsonLoadsChars
          (trimChars (stripTrailingFence (stripBareFence (stripTaggedFence s.data))))
    ∧ ((∃ d, extract_json s = Except.error d)
        ↔ ¬ ∃ v,
            jsonLoadsChars
              (trimChars (stripTrailingFence (stripBareFence (stripTaggedFence s.data))))
              = Except.ok v) := by
  have h1 : extract_json s
      = jsonLoadsChars
          (trimChars (stripTrailingFence (stripBareFence (stripTaggedFence s.data)))) := rfl
  refine ⟨h1, ?_⟩
  rw [h1]
  cases hx :
      jsonLoadsChars
        (trimChars (stripTrailingFence (stripBareFence (stripTaggedFence s.data)))) with
  | ok v => simp
  | error d => simp

/-- Witness for C7 at the fenced reference input. -/
theorem C7_extraction_algorithm_witness :
    extract_json fencedJson
      = jsonLoadsChars
          (trimChars (stripTrailingFence (stripBareFence (stripTaggedFence fencedJson.data)))) :=
  (C7_extraction_algorithm fencedJson).1

/-- Counterexample to C7 as stated: on a fenced block whose language tag is
py, the stripping the claim describes (three backticks followed by any
language tag) leaves valid JSON, so extraction would have to succeed, but
the code's extraction, which recognises only the json tag, strips just the
bare backticks and then fails to parse. -/
theorem C7_counterexample_language_tag :
    specExtract fencedPy = Except.ok (Json.obj [("a", Json.num 1)])
    ∧ extract_json fencedPy = Except.error "Expecting value" := by
  constructor
  · with_unfolding_all rfl
  · rfl

/-- C8: the parser round-trips the two reference inputs: the fenced text
yields the object binding a to 1, and the unfenced text yields the same
object. -/
theorem C8_parser_round_trip :
    extract_json fencedJson = Except.ok (Json.obj [("a", Json.num 1)])
    ∧ extract_json bareJson = Except.ok (Json.obj [("a", Json.num 1)]) := by
  constructor <;> with_unfolding_all rfl

/-- C9: every status CompileAgent.invoke produces is one of tidak_relevan,
terkumpul and error; terkumpul occurs only when the generation call
succeeded and its content parsed as JSON; the error status always comes with
a non-None error field. -/
theorem C9_compile_status_partition
    (cfg : Config) (aspirasi : Aspirasi) (responses : List AbsorpsiResponse)
    (llm : LLMOutcome) :
    ((compileInvoke cfg aspirasi responses llm).1.status = "tidak_relevan"
      ∨ (compileInvoke cfg aspirasi responses llm).1.status = "terkumpul"
      ∨ (compileInvoke cfg aspirasi responses llm).1.status = "error")
    ∧ ((compileInvoke cfg aspirasi responses llm).1.status = "terkumpul" →
        ∃ resp, llm = LLMOutcome.success resp
          ∧ ∃ v, extract_json resp.content = Except.ok v)
    ∧ ((compileInvoke cfg aspirasi responses llm).1.status = "error" →
        (compileInvoke cfg aspirasi responses llm).1.error ≠ none) := by
  by_cases hemp : (responses.filter relevantFilter).isEmpty
  · refine ⟨Or.inl ?_, fun hterk => ?_, fun herr => ?_⟩
    · simp [compileInvoke, hemp]
    · simp [compileInvoke, hemp] at hterk
    · simp [compileInvoke, hemp] at herr
  · have hemp' : (responses.filter relevantFilter).isEmpty = false := by
      simpa using hemp
    cases llm with
    | failure e =>
      refine ⟨Or.inr (Or.inr ?_), fun hterk => ?_, fun herr => ?_⟩
      · simp [compileInvoke, hemp']
      · simp [compileInvoke, hemp'] at hterk
      · simp [compileInvoke, hemp']
    | success resp =>
      cases hx : extract_json resp.content with
      | ok v =>
        cases v with
        | obj kvs =>
          refine ⟨Or.inr (Or.inl ?_), fun hterk => ⟨resp, rfl, Json.obj kvs, hx⟩,
            fun herr => ?_⟩
          · simp [compileInvoke, hemp', hx]
          · simp [compileInvoke, hemp', hx] at herr
        | null =>
          refine ⟨Or.inr (Or.inr ?_), fun hterk => ?_, fun herr => ?_⟩
          · simp [compileInvoke, hemp', hx]
          · simp [compileInvoke, hemp', hx] at hterk
          · simp [compileInvoke, hemp', hx]
        | bool b =>
          refine ⟨Or.inr (Or.inr ?_), fun hterk => ?_, fun herr => ?_⟩
          · simp [compileInvoke, hemp', hx]
          · simp [compileInvoke, hemp', hx] at hterk
          · simp [compileInvoke, hemp', hx]
        | num q =>
          refine ⟨Or.inr (Or.inr ?_), fun hterk => ?_, fun herr => ?_⟩
          · simp [compileInvoke, hemp', hx]
          · simp [compileInvoke, hemp', hx] at hterk
          · simp [compileInvoke, hemp', hx]
        | str s2 =>
          refine ⟨Or.inr (Or.inr ?_), fun hterk => ?_, fun herr => ?_⟩
          · simp [compileInvoke, hemp', hx]
          · simp [compileInvoke, hemp', hx] at hterk
          · simp [compileInvoke, hemp', hx]
        | arr xs =>
          refine ⟨Or.inr (Or.inr ?_), fun hterk => ?_, fun herr => ?_⟩
          · simp [compileInvoke, hemp', hx]
          · simp [compileInvoke, hemp', hx] at hterk
          · simp [compileInvoke, hemp', hx]
      | error e =>
        refine ⟨Or.inr (Or.inr ?_), fun hterk => ?_, fun herr => ?_⟩
        · simp [compileInvoke, hemp', hx]
        · simp [compileInvoke, hemp', hx] at hterk
        · simp [compileInvoke, hemp', hx]

/-- C10: when the generation call succeeds and its content parses to a JSON
object lacking the relevansi key, the evaluation result's relevansi defaults
to rendah, and the aggregation filter, which matches only Tinggi and Sedang,
excludes it, exactly like a failed evaluation. -/
theorem C10_missing_relevansi_defaults_to_rendah
    (cfg : Config) (member : DPRMember) (aspirasi : Aspirasi)
    (resp : LLMResponse) (kvs : List (String × Json))
    (hparse : extract_json resp.content = Except.ok (Json.obj kvs))
    (hmiss : dictGet kvs "relevansi" = none) :
    (absorbInvoke cfg member aspirasi (LLMOutcome.success resp)).1.relevansi = "rendah"
    ∧ relevantFilter (absorbInvoke cfg member aspirasi (LLMOutcome.success resp)).1
        = false := by
  have hrel : (absorbInvoke cfg member aspirasi (LLMOutcome.success resp)).1.relevansi
      = "rendah" := by
    simp [absorbInvoke, hparse, getStr, hmiss]
  refine ⟨hrel, ?_⟩
  have hTS : (("rendah" == "Tinggi") || ("rendah" == "Sedang")) = false := by decide
  simp [relevantFilter, hrel, hTS]

/-- Witness for C1: at a concrete failing generation call every agent
records the transport error. -/
theorem C1_no_exception_escapes_witness :
    (absorbInvoke cfg0 member0 asp0 (LLMOutcome.failure "timeout")).1.error
        = some "timeout"
    ∧ (compileInvoke cfg0 asp0 [okResp0] (LLMOutcome.failure "timeout")).1.error
        = some "timeout"
    ∧ (followupInvoke cfg0 asp0 komp0 (LLMOutcome.failure "timeout")).1.error
        = some "timeout" := by
  have h := C1_no_exception_escapes cfg0 member0 asp0 [okResp0] komp0
    (LLMOutcome.failure "timeout")
  exact ⟨h.1, h.2.1 (by decide), h.2.2 rfl⟩

/-- Witness for C2: a concrete batch of one low-relevance and one errored
evaluation short-circuits aggregation. -/
theorem C2_compile_short_circuits_witness :
    compileInvoke cfg0 asp0 [lowResp0, errResp0] (LLMOutcome.failure "timeout")
      = ({ status := "tidak_relevan", jumlah_anggota := 0, cost_usd := 0 }, 0) :=
  C2_compile_short_circuits_when_nothing_relevant cfg0 asp0 [lowResp0, errResp0]
    (LLMOutcome.failure "timeout") (by decide)

/-- Witness for C3: a concrete errored aggregation short-circuits the
follow-up stage. -/
theorem C3_followup_short_circuits_witness :
    followupInvoke cfg0 asp0 kompErr0 (LLMOutcome.failure "timeout")
      = ({ langkah_tindak_lanjut := [], komisi_penanggung_jawab := "", timeline := "",
           indikator_keberhasilan := [], mekanisme := "",
           error := some noValidKompilasiMsg, cost_usd := 0 }, 0)
    ∧ noValidKompilasiMsg ≠ "" :=
  C3_followup_short_circuits_without_collected_status cfg0 asp0 kompErr0
    (LLMOutcome.failure "timeout") (by decide)

/-- Witness for C5: a concrete transport failure defaults relevance to
rendah, and a concrete errored result is excluded by the filter. -/
theorem C5_failed_evaluations_witness :
    ((absorbInvoke cfg0 member0 asp0 (LLMOutcome.failure "timeout")).1.relevansi
        = "rendah"
      ∧ (absorbInvoke cfg0 member0 asp0 (LLMOutcome.failure "timeout")).1.error
          = some "timeout")
    ∧ errResp0 ∉ [errResp0, okResp0].filter relevantFilter := by
  have h := C5_failed_evaluations_never_aggregate cfg0 member0 asp0
    (LLMOutcome.failure "timeout") "timeout"
  exact ⟨h.1 rfl, h.2 errResp0 [errResp0, okResp0] (by decide)⟩

/-- Witness for C6: a failed call costs zero, and a call returning non-JSON
text with reported token usage costs exactly the computed cost while the
aggregation preserves the filtered count. -/
theorem C6_partial_cost_witness :
    ((absorbInvoke cfg0 member0 asp0 (LLMOutcome.failure "timeout")).1.cost_usd = 0
      ∧ (compileInvoke cfg0 asp0 [okResp0] (LLMOutcome.failure "timeout")).1.cost_usd = 0
      ∧ (followupInvoke cfg0 asp0 komp0 (LLMOutcome.failure "timeout")).1.cost_usd = 0)
    ∧ (compileInvoke cfg0 asp0 [okResp0] (LLMOutcome.success respBad0)).1
        = { status := "error",
            jumlah_anggota := ([okResp0].filter relevantFilter).length,
            error := some "Expecting value", cost_usd := costOfResponse cfg0 respBad0 }
    ∧ ([okResp0].filter relevantFilter).length = 1 := by
  have h := C6_partial_cost_on_failure cfg0 member0 asp0 [okResp0] komp0
    "timeout" respBad0 "Expecting value"
  exact ⟨⟨h.1.1, h.1.2.1 (by decide), h.1.2.2 rfl⟩,
    (h.2 rfl).2.1 (by decide), by decide⟩

/-- Witness for C9: a concrete failing aggregation call has a populated
error field, and a concrete successful run shows terkumpul implies a parsed
response. -/
theorem C9_compile_status_witness :
    (compileInvoke cfg0 asp0 [okResp0] (LLMOutcome.failure "timeout")).1.error ≠ none
    ∧ ∃ resp, LLMOutcome.success respGood0 = LLMOutcome.success resp
        ∧ ∃ v, extract_json resp.content = Except.ok v := by
  constructor
  · exact (C9_compile_status_partition cfg0 asp0 [okResp0]
      (LLMOutcome.failure "timeout")).2.2 (by decide)
  · exact (C9_compile_status_partition cfg0 asp0 [okResp0]
      (LLMOutcome.success respGood0)).2.1 (by decide)

/-- Witness for C10: a response whose content is an empty JSON object yields
relevansi rendah and is excluded by the filter. -/
theorem C10_missing_relevansi_witness :
    (absorbInvoke cfg0 member0 asp0 (LLMOutcome.success respEmptyObj)).1.relevansi
        = "rendah"
    ∧ relevantFilter (absorbInvoke cfg0 member0 asp0 (LLMOutcome.success respEmptyObj)).1
        = false :=
  C10_missing_relevansi_defaults_to_rendah cfg0 member0 asp0 respEmptyObj [] rfl rfl
